import Mathlib

/-!
Verification development for the remote-cluster lifecycle manager of
`pkg/remoteclusters/cluster.go`.

The development gives a shallow embedding of the `Cluster` struct, its
`Reconcile` control flow (pre-reconciliation, once-guarded client and
informer initialization, the six-step reconciler pipeline), component
removal, shutdown, and the namespace-watch configuration.

External collaborators (the Kubernetes API, `manager.New`, the informer
cache, `ctrl.Watch`, the individual reconciler step implementations and
the two `Delete` calls) are modelled by oracle environments that record
the outcome each collaborator call would return; the control flow, state
updates and error wrapping are translated from the Go source.  Side
effects that the claims talk about (which initializations were attempted,
which pipeline steps ran, which deletes were issued) are recorded in an
explicit trace.
-/

namespace RemoteClusters

/-- Go error values as this package sees them: either a raw error with a
message (tagged with whether the Kubernetes API classifies it as a
not-found status error), or an `emperror.Wrap`/`Wrapf` adding a context
message around a cause. -/
inductive GoErr where
  | base (msg : String) (notFound : Bool)
  | wrap (context : String) (cause : GoErr)
deriving DecidableEq, Repr

/-- Model of `k8serrors.IsNotFound`: true exactly for a raw API status
error carrying the not-found reason.  A wrapped error is not itself an
API status error, so wrapping hides the reason. -/
def GoErr.isNotFound : GoErr → Bool
  | .base _ nf => nf
  | .wrap _ _ => false

/-- The `RemoteIstio` custom resource, reduced to the object metadata
fields the manager reads (`Name` and `Namespace`). -/
structure RemoteIstio where
  name : String
  ns : String
deriving DecidableEq, Repr

/-- The `Istio` custom resource, reduced to its metadata name. -/
structure Istio where
  name : String
deriving DecidableEq, Repr

/-- Names of the six reconciler functions appended to `ReconcilerFuncs`
in `Cluster.Reconcile`, in source order. -/
inductive StepName where
  | reconcileConfig
  | reconcileSignCert
  | reconcileCARootToNamespaces
  | reconcileEnabledServices
  | ReconcileEnabledServiceEndpoints
  | reconcileComponents
deriving DecidableEq, Repr

/-- Observable side effects of one `Reconcile` call: an execution of the
body guarded by `initClient.Do`, an execution of the body guarded by
`initInformers.Do`, or a run of one pipeline step. -/
inductive Event where
  | clientInitAttempted
  | informerInitAttempted
  | ranStep (s : StepName)
deriving DecidableEq, Repr

/-- The two remote resources `RemoveRemoteIstioComponents` deletes. -/
inductive DeleteTarget where
  | istioCRD
  | meshGatewayCRD
deriving DecidableEq, Repr

/-- Go runtime faults the embedding can observe. -/
inductive GoPanic where
  | closeOfClosedChannel
deriving DecidableEq, Repr

/-- The mutable state of a `Cluster` value.  Pointer fields of the Go
struct that are set during the lifecycle are modelled either as `Option`
values (`remoteConfig`, `istioConfig`) or as booleans recording that the
corresponding handle has been populated (`managerStarted` for `mgr`,
`ctrlRuntimeClientSet`, `dynamicClientSet`, `watchInstalled`).  The two
`sync.Once` guards are modelled by their done flags, and the stop channel
by whether it has been closed. -/
structure ClusterState where
  name : String
  remoteConfig : Option RemoteIstio
  istioConfig : Option Istio
  initClientDone : Bool
  initInformersDone : Bool
  managerStarted : Bool
  ctrlRuntimeClientSet : Bool
  dynamicClientSet : Bool
  watchInstalled : Bool
  stopperClosed : Bool
deriving DecidableEq, Repr

/-- The state `NewCluster` produces after the rest-config parse succeeds:
name recorded, stop channel open, nothing initialized. -/
def newCluster (name : String) : ClusterState :=
  ⟨name, none, none, false, false, false, false, false, false, false⟩

/-- `Cluster.GetName`. -/
def GetName (c : ClusterState) : String :=
  c.name

/-- `Cluster.GetRemoteConfig`. -/
def GetRemoteConfig (c : ClusterState) : Option RemoteIstio :=
  c.remoteConfig

/-- Oracle for the outcomes of the external calls a `Reconcile`
invocation makes: the pre-reconciliation `reconcileCRDs` call,
`manager.New`, `dynamic.NewForConfig`, `GetInformerForKind`,
`ctrl.Watch`, and each of the six pipeline steps. -/
structure ReconcileEnv where
  reconcileCRDsErr : Option GoErr
  managerNewErr : Option GoErr
  dynamicClientErr : Option GoErr
  getInformerErr : Option GoErr
  watchErr : Option GoErr
  stepErr : StepName → Option GoErr

/-- `Cluster.startManager`: `manager.New` may fail (wrapped as
"could not create manager"); on success the manager handle is stored and
the background start plus cache sync happen. -/
def startManager (env : ReconcileEnv) (c : ClusterState) :
    Option GoErr × ClusterState :=
  match env.managerNewErr with
  | some e => (some (.wrap "could not create manager" e), c)
  | none => (none, { c with managerStarted := true })

/-- `Cluster.initK8SClients`: start the manager, store the
controller-runtime client, then build the dynamic client (failure
wrapped as "could not get dynamic client"). -/
def initK8SClients (env : ReconcileEnv) (c : ClusterState) :
    Option GoErr × ClusterState :=
  match startManager env c with
  | (some e, c1) => (some e, c1)
  | (none, c1) =>
    let c2 := { c1 with ctrlRuntimeClientSet := true }
    match env.dynamicClientErr with
    | some e => (some (.wrap "could not get dynamic client" e), c2)
    | none => (none, { c2 with dynamicClientSet := true })

/-- `Cluster.initK8sInformers`: error out if `remoteConfig` is unset,
then get the namespace informer and register the watch, wrapping the
respective failures. -/
def initK8sInformers (env : ReconcileEnv) (c : ClusterState) :
    Option GoErr × ClusterState :=
  if c.remoteConfig.isNone then
    (some (.base "remoteconfig must be set" false), c)
  else
    match env.getInformerErr with
    | some e => (some (.wrap "could not get informer for namespaces" e), c)
    | none =>
      match env.watchErr with
      | some e => (some (.wrap "could not set watcher for namespaces informer" e), c)
      | none => (none, { c with watchInstalled := true })

/-- The `c.initClient.Do(...)` block of `Reconcile`: the guarded body
runs only when the once-flag is still unset, and the flag becomes set
after the body ran, whether or not the body succeeded (`sync.Once`
marks itself done unconditionally).  When the body is skipped the `err`
variable keeps its previous value, which is `nil` at this point. -/
def clientPhase (env : ReconcileEnv) (c : ClusterState) :
    Option GoErr × ClusterState × List Event :=
  if c.initClientDone then (none, c, [])
  else
    match initK8SClients env c with
    | (e, c1) => (e, { c1 with initClientDone := true }, [Event.clientInitAttempted])

/-- The `c.initInformers.Do(...)` block of `Reconcile`, guarded the same
way as the client phase. -/
def informerPhase (env : ReconcileEnv) (c : ClusterState) :
    Option GoErr × ClusterState × List Event :=
  if c.initInformersDone then (none, c, [])
  else
    match initK8sInformers env c with
    | (e, c1) => (e, { c1 with initInformersDone := true }, [Event.informerInitAttempted])

/-- The `for _, f := range ReconcilerFuncs` loop: run steps in order,
stop at the first failure, and report which steps ran. -/
def runPipeline (stepErr : StepName → Option GoErr) :
    List StepName → Option GoErr × List StepName
  | [] => (none, [])
  | s :: rest =>
    match stepErr s with
    | some e => (some e, [s])
    | none =>
      match runPipeline stepErr rest with
      | (r, ran) => (r, s :: ran)

/-- The fixed contents of `ReconcilerFuncs`, in the order they are
appended in `Cluster.Reconcile`. -/
def reconcilerFuncs : List StepName :=
  [.reconcileConfig, .reconcileSignCert, .reconcileCARootToNamespaces,
   .reconcileEnabledServices, .ReconcileEnabledServiceEndpoints, .reconcileComponents]

/-- Result of one `Reconcile` call: the returned error, the cluster
state afterwards, and the trace of observable side effects. -/
structure ReconcileResult where
  err : Option GoErr
  state : ClusterState
  trace : List Event
deriving DecidableEq, Repr

/-- `Cluster.Reconcile`: run `reconcileCRDs` (failure wrapped as
"could not reconcile"), record `remoteConfig`, run the once-guarded
client and informer initializations (failures wrapped as
"could not init k8s clients" / "could not init k8s informers"), then run
the six-step pipeline, wrapping a step failure as "could not reconcile". -/
def Reconcile (env : ReconcileEnv) (c : ClusterState)
    (remoteConfig : Option RemoteIstio) (_istio : Option Istio) : ReconcileResult :=
  match env.reconcileCRDsErr with
  | some e => ⟨some (.wrap "could not reconcile" e), c, []⟩
  | none =>
    let c1 := { c with remoteConfig := remoteConfig }
    match clientPhase env c1 with
    | (some e, c2, tr1) => ⟨some (.wrap "could not init k8s clients" e), c2, tr1⟩
    | (none, c2, tr1) =>
      match informerPhase env c2 with
      | (some e, c3, tr2) => ⟨some (.wrap "could not init k8s informers" e), c3, tr1 ++ tr2⟩
      | (none, c3, tr2) =>
        match runPipeline env.stepErr reconcilerFuncs with
        | (perr, ran) =>
          ⟨perr.map (.wrap "could not reconcile"), c3, tr1 ++ tr2 ++ ran.map Event.ranStep⟩

/-- Oracle for the outcomes of the two `Delete` calls of
`RemoveRemoteIstioComponents`. -/
structure RemoveEnv where
  deleteIstioErr : Option GoErr
  deleteGatewayErr : Option GoErr
deriving Repr

/-- `Cluster.RemoveRemoteIstioComponents`: no-op when `istioConfig` is
nil.  Otherwise both deletes are issued.  For the istio CRD the source
builds a wrapped error on a delete failure that is not a not-found, but
discards it (the `emperror.Wrap` call is a bare statement, there is no
`return`).  For the mesh-gateway CRD the source returns a wrapped error
exactly when the delete failed with a not-found status (the condition is
`err != nil && k8serrors.IsNotFound(err)`); any other failure falls
through to `return nil`. -/
def RemoveRemoteIstioComponents (env : RemoveEnv) (c : ClusterState) :
    Option GoErr × List DeleteTarget :=
  if c.istioConfig.isNone then (none, [])
  else
    let _istioDeleteOutcomeDiscarded : Option GoErr :=
      match env.deleteIstioErr with
      | some e =>
        if e.isNotFound then none
        else some (.wrap "could not remove istio CRD from remote cluster" e)
      | none => none
    let res : Option GoErr :=
      match env.deleteGatewayErr with
      | some e =>
        if e.isNotFound then
          some (.wrap "could not remove mesh gateway CRD from remote cluster" e)
        else none
      | none => none
    (res, [DeleteTarget.istioCRD, DeleteTarget.meshGatewayCRD])

/-- `Cluster.Shutdown`: `close(c.stopper)`.  Closing an already closed
channel is a runtime fault in Go, so the model signals a panic when the
stop channel was closed before. -/
def Shutdown (c : ClusterState) : Except GoPanic ClusterState :=
  if c.stopperClosed then Except.error GoPanic.closeOfClosedChannel
  else Except.ok { c with stopperClosed := true }

/-- Kinds of watch events a controller-runtime predicate filters. -/
inductive WatchEvent where
  | create
  | update
  | delete
  | generic
deriving DecidableEq, Repr

/-- The `predicate.Funcs` literal registered by `initK8sInformers`:
`CreateFunc` returns true, `DeleteFunc`, `GenericFunc` and `UpdateFunc`
return false. -/
def namespaceWatchPredicate : WatchEvent → Bool
  | .create => true
  | .update => false
  | .delete => false
  | .generic => false

/-- A `types.NamespacedName`. -/
structure NamespacedName where
  name : String
  ns : String
deriving DecidableEq, Repr

/-- A `reconcile.Request`. -/
structure ReconcileRequest where
  namespacedName : NamespacedName
deriving DecidableEq, Repr

/-- A `handler.MapObject`: the metadata of the object an accepted watch
event is about. -/
structure MapObject where
  objName : String
  objNs : String
deriving DecidableEq, Repr

/-- The `handler.ToRequestsFunc` closure registered by
`initK8sInformers`: whatever object changed, it returns the single
request naming `c.remoteConfig`'s name and namespace.  The closure reads
the cluster's `remoteConfig` field, passed here explicitly. -/
def namespaceWatchMapFn (remoteConfig : RemoteIstio) (_object : MapObject) :
    List ReconcileRequest :=
  [⟨⟨remoteConfig.name, remoteConfig.ns⟩⟩]

/-- The pipeline steps recorded in a trace, in order. -/
def stepsRan : List Event → List StepName
  | [] => []
  | Event.ranStep s :: rest => s :: stepsRan rest
  | Event.clientInitAttempted :: rest => stepsRan rest
  | Event.informerInitAttempted :: rest => stepsRan rest

theorem stepsRan_append (l1 l2 : List Event) :
    stepsRan (l1 ++ l2) = stepsRan l1 ++ stepsRan l2 := by
  induction l1 with
  | nil => rfl
  | cons e rest ih => cases e <;> simp [stepsRan, ih]

theorem stepsRan_map_ranStep (l : List StepName) :
    stepsRan (l.map Event.ranStep) = l := by
  induction l with
  | nil => rfl
  | cons s rest ih => simp [stepsRan, ih]

theorem runPipeline_none (f : StepName → Option GoErr) (l : List StepName)
    (h : (runPipeline f l).1 = none) : (runPipeline f l).2 = l := by
  induction l with
  | nil => rfl
  | cons s rest ih =>
    cases hf : f s with
    | some e => simp [runPipeline, hf] at h
    | none =>
      rcases hr : runPipeline f rest with ⟨r, ran⟩
      have h1 : r = none := by simpa [runPipeline, hf, hr] using h
      have h2 : ran = rest := by
        have hx := ih (by rw [hr]; exact h1)
        rw [hr] at hx
        exact hx
      simp [runPipeline, hf, hr, h2]

theorem runPipeline_fail_split (f : StepName → Option GoErr) (e : GoErr) :
    ∀ (pre : List StepName) (s : StepName) (post : List StepName),
    (∀ t ∈ pre, f t = none) → f s = some e →
    runPipeline f (pre ++ s :: post) = (some e, pre ++ [s]) := by
  intro pre
  induction pre with
  | nil =>
    intro s post _ hfail
    simp [runPipeline, hfail]
  | cons t rest ih =>
    intro s post hpre hfail
    have ht : f t = none := hpre t (by simp)
    have hrest : ∀ u ∈ rest, f u = none := fun u hu => hpre u (by simp [hu])
    have hih := ih s post hrest hfail
    simp only [List.cons_append, runPipeline, ht, List.append_eq]
    rw [hih]

theorem startManager_remoteConfig (env : ReconcileEnv) (c : ClusterState) :
    ((startManager env c).2).remoteConfig = c.remoteConfig := by
  cases h : env.managerNewErr <;> simp [startManager, h]

theorem initK8SClients_remoteConfig (env : ReconcileEnv) (c : ClusterState) :
    ((initK8SClients env c).2).remoteConfig = c.remoteConfig := by
  have hs := startManager_remoteConfig env c
  unfold initK8SClients
  rcases hm : startManager env c with ⟨me, c1⟩
  rw [hm] at hs
  cases me with
  | some e => simpa using hs
  | none => cases hd : env.dynamicClientErr <;> simp [hd] <;> exact hs

theorem clientPhase_remoteConfig (env : ReconcileEnv) (c : ClusterState) :
    ((clientPhase env c).2.1).remoteConfig = c.remoteConfig := by
  unfold clientPhase
  by_cases h : c.initClientDone
  · simp [h]
  · have hi := initK8SClients_remoteConfig env c
    rcases hk : initK8SClients env c with ⟨e, c1⟩
    rw [hk] at hi
    have hi2 : c1.remoteConfig = c.remoteConfig := hi
    simp [h, hk, hi2]

theorem clientPhase_stepsRan (env : ReconcileEnv) (c : ClusterState) :
    stepsRan ((clientPhase env c).2.2) = [] := by
  unfold clientPhase
  by_cases h : c.initClientDone
  · simp [h, stepsRan]
  · rcases hk : initK8SClients env c with ⟨e, c1⟩
    simp [h, stepsRan]

theorem informerPhase_remoteConfig (env : ReconcileEnv) (c : ClusterState) :
    ((informerPhase env c).2.1).remoteConfig = c.remoteConfig := by
  unfold informerPhase
  by_cases h : c.initInformersDone
  · simp [h]
  · unfold initK8sInformers
    by_cases hn : c.remoteConfig.isNone
    · simp [h, hn]
    · cases hg : env.getInformerErr <;> cases hw : env.watchErr <;> simp [h, hn, hg, hw]

theorem informerPhase_stepsRan (env : ReconcileEnv) (c : ClusterState) :
    stepsRan ((informerPhase env c).2.2) = [] := by
  unfold informerPhase
  by_cases h : c.initInformersDone
  · simp [h, stepsRan]
  · rcases hk : initK8sInformers env c with ⟨e, c1⟩
    simp [h, stepsRan]

theorem reconcile_crds_fail (env : ReconcileEnv) (c : ClusterState)
    (rc : Option RemoteIstio) (istio : Option Istio) (e : GoErr)
    (h : env.reconcileCRDsErr = some e) :
    Reconcile env c rc istio = ⟨some (.wrap "could not reconcile" e), c, []⟩ := by
  unfold Reconcile
  rw [h]

theorem reconcile_client_fail (env : ReconcileEnv) (c : ClusterState)
    (rc : Option RemoteIstio) (istio : Option Istio) (e : GoErr)
    (c2 : ClusterState) (tr1 : List Event)
    (h : env.reconcileCRDsErr = none)
    (hc : clientPhase env { c with remoteConfig := rc } = (some e, c2, tr1)) :
    Reconcile env c rc istio = ⟨some (.wrap "could not init k8s clients" e), c2, tr1⟩ := by
  unfold Reconcile
  rw [h]
  simp only [hc]

theorem reconcile_informer_fail (env : ReconcileEnv) (c : ClusterState)
    (rc : Option RemoteIstio) (istio : Option Istio) (e : GoErr)
    (c2 c3 : ClusterState) (tr1 tr2 : List Event)
    (h : env.reconcileCRDsErr = none)
    (hc : clientPhase env { c with remoteConfig := rc } = (none, c2, tr1))
    (hi : informerPhase env c2 = (some e, c3, tr2)) :
    Reconcile env c rc istio =
      ⟨some (.wrap "could not init k8s informers" e), c3, tr1 ++ tr2⟩ := by
  unfold Reconcile
  rw [h]
  simp only [hc, hi]

theorem reconcile_phases_ok (env : ReconcileEnv) (c : ClusterState)
    (rc : Option RemoteIstio) (istio : Option Istio)
    (c2 c3 : ClusterState) (tr1 tr2 : List Event)
    (h : env.reconcileCRDsErr = none)
    (hc : clientPhase env { c with remoteConfig := rc } = (none, c2, tr1))
    (hi : informerPhase env c2 = (none, c3, tr2)) :
    Reconcile env c rc istio =
      ⟨(runPipeline env.stepErr reconcilerFuncs).1.map (.wrap "could not reconcile"), c3,
        tr1 ++ tr2 ++ (runPipeline env.stepErr reconcilerFuncs).2.map Event.ranStep⟩ := by
  unfold Reconcile
  rw [h]
  rcases hp : runPipeline env.stepErr reconcilerFuncs with ⟨perr, ran⟩
  simp only [hc, hi, hp]

theorem informerPhase_err (env : ReconcileEnv) (c : ClusterState) :
    (informerPhase env c).1 = none ∨
    (informerPhase env c).1 = (initK8sInformers env c).1 := by
  unfold informerPhase
  by_cases h : c.initInformersDone
  · left; simp [h]
  · right
    rcases hk : initK8sInformers env c with ⟨ke, kc⟩
    simp [h, hk]

theorem wrap_ne_of_ctx_ne {s1 s2 : String} {e1 e2 : GoErr} (h : s1 ≠ s2) :
    some (GoErr.wrap s1 e1) ≠ some (GoErr.wrap s2 e2) := by
  intro hx
  injection hx with h1
  injection h1 with hctx hcause
  exact h hctx

theorem wrap_ne_of_cause_ne {ctx : String} {e1 e2 : GoErr} (h : e1 ≠ e2) :
    some (GoErr.wrap ctx e1) ≠ some (GoErr.wrap ctx e2) := by
  intro hx
  injection hx with h1
  injection h1 with hctx hcause
  exact h hcause

/-- C7: when the pre-reconciliation step succeeds, `Reconcile`
overwrites the cluster's desired remote configuration with its argument,
even when a later phase or pipeline step fails; `GetRemoteConfig`
returns the most recently recorded value, the previous value is kept
when the pre-reconciliation step fails, and a never-reconciled cluster
reports nil. -/
theorem remoteConfig_recorded_even_on_later_failure (env : ReconcileEnv)
    (c : ClusterState) (rc : Option RemoteIstio) (istio : Option Istio) (n : String) :
    (env.reconcileCRDsErr = none →
      GetRemoteConfig (Reconcile env c rc istio).state = rc) ∧
    (∀ e, env.reconcileCRDsErr = some e →
      GetRemoteConfig (Reconcile env c rc istio).state = GetRemoteConfig c) ∧
    GetRemoteConfig (newCluster n) = none := by
  refine ⟨?_, ?_, rfl⟩
  · intro h
    rcases hc : clientPhase env { c with remoteConfig := rc } with ⟨ce, c2, tr1⟩
    have h2 : c2.remoteConfig = rc := by
      have hx := clientPhase_remoteConfig env { c with remoteConfig := rc }
      rw [hc] at hx
      exact hx
    cases ce with
    | some e =>
      rw [reconcile_client_fail env c rc istio e c2 tr1 h hc]
      exact h2
    | none =>
      rcases hi : informerPhase env c2 with ⟨ie, c3, tr2⟩
      have h3 : c3.remoteConfig = rc := by
        have hx := informerPhase_remoteConfig env c2
        rw [hi] at hx
        have hx2 : c3.remoteConfig = c2.remoteConfig := hx
        rw [hx2]
        exact h2
      cases ie with
      | some e =>
        rw [reconcile_informer_fail env c rc istio e c2 c3 tr1 tr2 h hc hi]
        exact h3
      | none =>
        rw [reconcile_phases_ok env c rc istio c2 c3 tr1 tr2 h hc hi]
        exact h3
  · intro e h
    rw [reconcile_crds_fail env c rc istio e h]

/-- Concrete instance of `remoteConfig_recorded_even_on_later_failure`:
even though the client initialization fails in this run, the desired
remote configuration has been overwritten. -/
theorem remoteConfig_recorded_even_on_later_failure_witness :
    GetRemoteConfig
      (Reconcile ⟨none, some (GoErr.base "boom" false), none, none, none, fun _ => none⟩
        (newCluster "w") (some ⟨"istio-remote", "default"⟩) none).state =
      some ⟨"istio-remote", "default"⟩ :=
  (remoteConfig_recorded_even_on_later_failure
    ⟨none, some (GoErr.base "boom" false), none, none, none, fun _ => none⟩
    (newCluster "w") (some ⟨"istio-remote", "default"⟩) none "w").1 rfl

/-- C10: the "remoteconfig must be set" branch of `initK8sInformers` is
unreachable from a `Reconcile` call with a non-nil remote configuration:
`initK8sInformers` never produces that error from a state whose remote
configuration is set, and `Reconcile` — which records the remote
configuration before the guarded informer initialization — never
returns the correspondingly wrapped error. -/
theorem remoteconfig_unset_branch_unreachable (env : ReconcileEnv)
    (c : ClusterState) (rc : RemoteIstio) (istio : Option Istio) :
    (∀ cs : ClusterState, cs.remoteConfig.isSome = true →
      (initK8sInformers env cs).1 ≠
        some (GoErr.base "remoteconfig must be set" false)) ∧
    (Reconcile env c (some rc) istio).err ≠
      some (GoErr.wrap "could not init k8s informers"
        (GoErr.base "remoteconfig must be set" false)) := by
  have key : ∀ cs : ClusterState, cs.remoteConfig.isSome = true →
      (initK8sInformers env cs).1 ≠
        some (GoErr.base "remoteconfig must be set" false) := by
    intro cs hs
    have hn : cs.remoteConfig.isNone = false := by
      cases h : cs.remoteConfig with
      | none => rw [h] at hs; exact absurd hs (by simp)
      | some v => rfl
    cases hg : env.getInformerErr <;> cases hw : env.watchErr <;>
      simp [initK8sInformers, hn, hg, hw]
  refine ⟨key, ?_⟩
  cases hcr : env.reconcileCRDsErr with
  | some e =>
    rw [reconcile_crds_fail env c (some rc) istio e hcr]
    exact wrap_ne_of_ctx_ne (by decide)
  | none =>
    rcases hc : clientPhase env { c with remoteConfig := some rc } with ⟨ce, c2, tr1⟩
    cases ce with
    | some e =>
      rw [reconcile_client_fail env c (some rc) istio e c2 tr1 hcr hc]
      exact wrap_ne_of_ctx_ne (by decide)
    | none =>
      have h2 : c2.remoteConfig = some rc := by
        have hx := clientPhase_remoteConfig env { c with remoteConfig := some rc }
        rw [hc] at hx
        exact hx
      rcases hi : informerPhase env c2 with ⟨ie, c3, tr2⟩
      cases ie with
      | some e =>
        rw [reconcile_informer_fail env c (some rc) istio e c2 c3 tr1 tr2 hcr hc hi]
        have hiErr : (informerPhase env c2).1 = some e := by rw [hi]
        have hne : e ≠ GoErr.base "remoteconfig must be set" false := by
          intro hcontra
          rcases informerPhase_err env c2 with h0 | h0
          · rw [h0] at hiErr
            exact Option.noConfusion hiErr
          · apply key c2 (by rw [h2]; rfl)
            rw [← h0, hiErr, hcontra]
        exact wrap_ne_of_cause_ne hne
      | none =>
        rw [reconcile_phases_ok env c (some rc) istio c2 c3 tr1 tr2 hcr hc hi]
        rcases hp : runPipeline env.stepErr reconcilerFuncs with ⟨perr, ran⟩
        cases perr with
        | none => simp [hp]
        | some e =>
          simp only [hp]
          exact wrap_ne_of_ctx_ne (by decide)

/-- Concrete instance of `remoteconfig_unset_branch_unreachable`. -/
theorem remoteconfig_unset_branch_unreachable_witness :
    (initK8sInformers ⟨none, none, none, none, none, fun _ => none⟩
      { newCluster "w" with remoteConfig := some ⟨"istio-remote", "default"⟩ }).1 ≠
      some (GoErr.base "remoteconfig must be set" false) :=
  (remoteconfig_unset_branch_unreachable
    ⟨none, none, none, none, none, fun _ => none⟩
    (newCluster "w") ⟨"istio-remote", "default"⟩ none).1
    { newCluster "w" with remoteConfig := some ⟨"istio-remote", "default"⟩ } rfl

theorem initK8SClients_preserves (env : ReconcileEnv) (c : ClusterState) :
    ((initK8SClients env c).2).initClientDone = c.initClientDone ∧
    ((initK8SClients env c).2).initInformersDone = c.initInformersDone := by
  cases hm : env.managerNewErr <;> cases hd : env.dynamicClientErr <;>
    simp [initK8SClients, startManager, hm, hd]

theorem initK8sInformers_preserves (env : ReconcileEnv) (c : ClusterState) :
    ((initK8sInformers env c).2).initClientDone = c.initClientDone ∧
    ((initK8sInformers env c).2).initInformersDone = c.initInformersDone := by
  by_cases hn : c.remoteConfig.isNone <;>
    cases hg : env.getInformerErr <;> cases hw : env.watchErr <;>
      simp [initK8sInformers, hn, hg, hw]

theorem clientPhase_done (env : ReconcileEnv) (c : ClusterState)
    (h : c.initClientDone = true) :
    clientPhase env c = (none, c, []) := by
  simp [clientPhase, h]

theorem clientPhase_not_done (env : ReconcileEnv) (c : ClusterState)
    (je : Option GoErr) (jc : ClusterState)
    (h : c.initClientDone = false)
    (hj : initK8SClients env c = (je, jc)) :
    clientPhase env c =
      (je, { jc with initClientDone := true }, [Event.clientInitAttempted]) := by
  simp [clientPhase, h, hj]

theorem informerPhase_done (env : ReconcileEnv) (c : ClusterState)
    (h : c.initInformersDone = true) :
    informerPhase env c = (none, c, []) := by
  simp [informerPhase, h]

theorem informerPhase_not_done (env : ReconcileEnv) (c : ClusterState)
    (ke : Option GoErr) (kc : ClusterState)
    (h : c.initInformersDone = false)
    (hk : initK8sInformers env c = (ke, kc)) :
    informerPhase env c =
      (ke, { kc with initInformersDone := true }, [Event.informerInitAttempted]) := by
  simp [informerPhase, h, hk]

/-- C6: the watch registered by `initK8sInformers` accepts exactly
creation events — update, deletion and generic events are all rejected —
and maps every accepted event to the single fixed reconciliation request
naming this cluster's owning `RemoteIstio` resource, regardless of which
object changed. -/
theorem watch_accepts_only_create_and_maps_to_owner (e : WatchEvent)
    (rc : RemoteIstio) (o1 o2 : MapObject) :
    (namespaceWatchPredicate e = true ↔ e = WatchEvent.create) ∧
    namespaceWatchMapFn rc o1 = [⟨⟨rc.name, rc.ns⟩⟩] ∧
    namespaceWatchMapFn rc o1 = namespaceWatchMapFn rc o2 ∧
    (namespaceWatchMapFn rc o1).length = 1 := by
  refine ⟨?_, rfl, rfl, rfl⟩
  cases e <;> simp [namespaceWatchPredicate]

/-- Concrete instance of `watch_accepts_only_create_and_maps_to_owner`. -/
theorem watch_accepts_only_create_and_maps_to_owner_witness :
    (namespaceWatchPredicate WatchEvent.update = true ↔
      WatchEvent.update = WatchEvent.create) ∧
    namespaceWatchMapFn ⟨"istio-remote", "default"⟩ ⟨"ns-a", ""⟩ =
      [⟨⟨"istio-remote", "default"⟩⟩] ∧
    namespaceWatchMapFn ⟨"istio-remote", "default"⟩ ⟨"ns-a", ""⟩ =
      namespaceWatchMapFn ⟨"istio-remote", "default"⟩ ⟨"ns-b", ""⟩ ∧
    (namespaceWatchMapFn ⟨"istio-remote", "default"⟩ ⟨"ns-a", ""⟩).length = 1 :=
  watch_accepts_only_create_and_maps_to_owner WatchEvent.update
    ⟨"istio-remote", "default"⟩ ⟨"ns-a", ""⟩ ⟨"ns-b", ""⟩

/-- C9 counterexample: a first `Shutdown` closes the stop channel; a
second `Shutdown` on the resulting state panics (close of an already
closed channel), so the second call is not safe as the claim states. -/
theorem shutdown_second_call_panics_counterexample :
    Shutdown (newCluster "c") =
      Except.ok { newCluster "c" with stopperClosed := true } ∧
    Shutdown { newCluster "c" with stopperClosed := true } =
      Except.error GoPanic.closeOfClosedChannel := by
  constructor <;> rfl

/-- C9 amended: `Shutdown` closes the stop channel, leaving it
signalled, but it is not idempotent — calling it again after a previous
`Shutdown` completed panics with a close-of-closed-channel fault. -/
theorem shutdown_signals_once_second_close_panics (c : ClusterState) :
    (c.stopperClosed = false →
      Shutdown c = Except.ok { c with stopperClosed := true }) ∧
    (c.stopperClosed = true →
      Shutdown c = Except.error GoPanic.closeOfClosedChannel) := by
  constructor <;> intro h <;> simp [Shutdown, h]

/-- Concrete instance of `shutdown_signals_once_second_close_panics`. -/
theorem shutdown_signals_once_second_close_panics_witness :
    Shutdown (newCluster "w") =
      Except.ok { newCluster "w" with stopperClosed := true } :=
  (shutdown_signals_once_second_close_panics (newCluster "w")).1 rfl

/-- C8 counterexample: on a cluster that never went through a successful
`Reconcile` (so `istioConfig` is nil), `RemoveRemoteIstioComponents`
returns success and issues no delete, rather than failing with a
client-not-ready error. -/
theorem remove_before_reconcile_counterexample :
    (RemoveRemoteIstioComponents ⟨none, none⟩ (newCluster "c")).1 = none ∧
    (RemoveRemoteIstioComponents ⟨none, none⟩ (newCluster "c")).2 = [] := by
  constructor <;> rfl

/-- C8 amended: called when no components were ever recorded as
installed, `RemoveRemoteIstioComponents` is a successful no-op: it
returns no error and performs no remote delete call (there is no
client-not-ready failure in the code). -/
theorem remove_without_install_is_noop (env : RemoveEnv) (c : ClusterState)
    (h : c.istioConfig = none) :
    RemoveRemoteIstioComponents env c = (none, []) := by
  simp [RemoveRemoteIstioComponents, h]

/-- Concrete instance of `remove_without_install_is_noop`. -/
theorem remove_without_install_is_noop_witness :
    RemoveRemoteIstioComponents
      ⟨some (GoErr.base "forbidden" false), some (GoErr.base "boom" false)⟩
      (newCluster "w") = (none, []) :=
  remove_without_install_is_noop
    ⟨some (GoErr.base "forbidden" false), some (GoErr.base "boom" false)⟩
    (newCluster "w") rfl

/-- C2: with components recorded as installed, both deletes are issued;
a not-found outcome of the istio-CRD delete is tolerated (the call
succeeds when the gateway delete succeeds), while a not-found outcome of
the mesh-gateway-CRD delete makes the call return an error. -/
theorem remove_absent_primary_tolerated_absent_gateway_errors
    (env : RemoveEnv) (c : ClusterState) (hinst : c.istioConfig.isSome = true) :
    ((∀ e, env.deleteIstioErr = some e → e.isNotFound = true) →
      env.deleteGatewayErr = none →
      (RemoveRemoteIstioComponents env c).1 = none) ∧
    (∀ e, env.deleteGatewayErr = some e → e.isNotFound = true →
      ((RemoveRemoteIstioComponents env c).1).isSome = true) ∧
    (RemoveRemoteIstioComponents env c).2 =
      [DeleteTarget.istioCRD, DeleteTarget.meshGatewayCRD] := by
  have hn : c.istioConfig.isNone = false := by
    cases h : c.istioConfig <;> simp [h] at hinst ⊢
  refine ⟨?_, ?_, ?_⟩
  · intro _ hg
    simp [RemoveRemoteIstioComponents, hn, hg]
  · intro e hg hnf
    simp [RemoveRemoteIstioComponents, hn, hg, hnf]
  · simp [RemoveRemoteIstioComponents, hn]

/-- Concrete instance of
`remove_absent_primary_tolerated_absent_gateway_errors`: istio CRD
already absent, gateway delete succeeds, call succeeds. -/
theorem remove_absent_primary_tolerated_absent_gateway_errors_witness :
    (RemoveRemoteIstioComponents ⟨some (GoErr.base "not found" true), none⟩
      { newCluster "w" with istioConfig := some ⟨"mesh"⟩ }).1 = none :=
  ((remove_absent_primary_tolerated_absent_gateway_errors
      ⟨some (GoErr.base "not found" true), none⟩
      { newCluster "w" with istioConfig := some ⟨"mesh"⟩ } rfl).1
    (by intro e he; injection he with h; rw [← h]; rfl) rfl)

/-- C3: at inputs where a delete fails with an error that is not a
not-found status (a permission failure on the istio CRD, a connection
failure on the mesh-gateway CRD), `RemoveRemoteIstioComponents` returns
success: the failure is silently swallowed (the wrapped error built for
the first delete is discarded without a `return`, and the second
delete's error check only fires on a not-found status). -/
theorem remove_swallows_non_notfound_delete_failures :
    (RemoveRemoteIstioComponents ⟨some (GoErr.base "forbidden" false), none⟩
      { newCluster "c" with istioConfig := some ⟨"mesh"⟩ }).1 = none ∧
    (RemoveRemoteIstioComponents ⟨none, some (GoErr.base "connection refused" false)⟩
      { newCluster "c" with istioConfig := some ⟨"mesh"⟩ }).1 = none := by
  constructor <;> rfl

/-- C1 counterexample: with `manager.New` failing, the first `Reconcile`
on a fresh cluster attempts the client initialization; the attempt fails
and the client bundle is not built, yet the once-guard is marked done,
and a second `Reconcile` on the resulting state does not re-attempt the
initialization.  This refutes both "the flag remains unset, so a
subsequent Reconcile call re-attempts" and "the flag is set only when
the guarded resource was successfully built". -/
theorem once_flag_latched_on_failure_counterexample :
    (Reconcile ⟨none, some (GoErr.base "boom" false), none, none, none, fun _ => none⟩
      (newCluster "c") (some ⟨"istio-remote", "default"⟩) none).err.isSome = true ∧
    (Reconcile ⟨none, some (GoErr.base "boom" false), none, none, none, fun _ => none⟩
      (newCluster "c") (some ⟨"istio-remote", "default"⟩) none).state.initClientDone = true ∧
    (Reconcile ⟨none, some (GoErr.base "boom" false), none, none, none, fun _ => none⟩
      (newCluster "c") (some ⟨"istio-remote", "default"⟩) none).state.ctrlRuntimeClientSet
      = false ∧
    Event.clientInitAttempted ∉
      (Reconcile ⟨none, some (GoErr.base "boom" false), none, none, none, fun _ => none⟩
        (Reconcile ⟨none, some (GoErr.base "boom" false), none, none, none, fun _ => none⟩
          (newCluster "c") (some ⟨"istio-remote", "default"⟩) none).state
        (some ⟨"istio-remote", "default"⟩) none).trace := by
  decide

/-- C1 amended: the `sync.Once` guards latch after the first attempt
regardless of its outcome.  Whenever a `Reconcile` call attempts a
guarded initialization, the corresponding done-flag is set in the
resulting state, whether or not the guarded resource was built; and
whenever a flag is already set, a `Reconcile` call does not re-attempt
that initialization (a failed attempt is therefore never retried). -/
theorem once_flags_latch_and_suppress_retry (env : ReconcileEnv)
    (c : ClusterState) (rc : Option RemoteIstio) (istio : Option Istio) :
    (Event.clientInitAttempted ∈ (Reconcile env c rc istio).trace →
      (Reconcile env c rc istio).state.initClientDone = true) ∧
    (Event.informerInitAttempted ∈ (Reconcile env c rc istio).trace →
      (Reconcile env c rc istio).state.initInformersDone = true) ∧
    (c.initClientDone = true →
      Event.clientInitAttempted ∉ (Reconcile env c rc istio).trace) ∧
    (c.initInformersDone = true →
      Event.informerInitAttempted ∉ (Reconcile env c rc istio).trace) := by
  cases hcr : env.reconcileCRDsErr with
  | some e =>
    rw [reconcile_crds_fail env c rc istio e hcr]
    exact ⟨fun h => absurd h (by simp), fun h => absurd h (by simp),
           fun _ => by simp, fun _ => by simp⟩
  | none =>
    cases hcd : c.initClientDone with
    | true =>
      have hc := clientPhase_done env { c with remoteConfig := rc } hcd
      cases hid : c.initInformersDone with
      | true =>
        have hi := informerPhase_done env { c with remoteConfig := rc } hid
        rw [reconcile_phases_ok env c rc istio _ _ _ _ hcr hc hi]
        refine ⟨fun _ => hcd, fun _ => hid, fun _ => ?_, fun _ => ?_⟩ <;>
          simp [List.mem_map]
      | false =>
        rcases hk : initK8sInformers env { c with remoteConfig := rc } with ⟨ke, kc⟩
        have hkpres := initK8sInformers_preserves env { c with remoteConfig := rc }
        rw [hk] at hkpres
        have hi := informerPhase_not_done env { c with remoteConfig := rc } ke kc hid hk
        cases ke with
        | some e =>
          rw [reconcile_informer_fail env c rc istio e _ _ _ _ hcr hc hi]
          refine ⟨fun _ => ?_, fun _ => rfl, fun _ => by simp,
                  fun h => absurd h (by simp [hid])⟩
          show kc.initClientDone = true
          rw [hkpres.1]
          exact hcd
        | none =>
          rw [reconcile_phases_ok env c rc istio _ _ _ _ hcr hc hi]
          refine ⟨fun _ => ?_, fun _ => rfl, fun _ => by simp [List.mem_map],
                  fun h => absurd h (by simp [hid])⟩
          show kc.initClientDone = true
          rw [hkpres.1]
          exact hcd
    | false =>
      rcases hj : initK8SClients env { c with remoteConfig := rc } with ⟨je, jc⟩
      have hjpres := initK8SClients_preserves env { c with remoteConfig := rc }
      rw [hj] at hjpres
      have hc := clientPhase_not_done env { c with remoteConfig := rc } je jc hcd hj
      cases je with
      | some e =>
        rw [reconcile_client_fail env c rc istio e _ _ hcr hc]
        exact ⟨fun _ => rfl, fun h => absurd h (by simp),
               fun h => absurd h (by simp [hcd]), fun _ => by simp⟩
      | none =>
        have hc2inf : ({ jc with initClientDone := true }).initInformersDone
            = c.initInformersDone := hjpres.2
        cases hid : c.initInformersDone with
        | true =>
          have hi := informerPhase_done env { jc with initClientDone := true }
            (by rw [hc2inf]; exact hid)
          rw [reconcile_phases_ok env c rc istio _ _ _ _ hcr hc hi]
          refine ⟨fun _ => rfl, fun _ => ?_, fun h => absurd h (by simp [hcd]),
                  fun _ => by simp [List.mem_map]⟩
          show ({ jc with initClientDone := true }).initInformersDone = true
          rw [hc2inf]
          exact hid
        | false =>
          rcases hk : initK8sInformers env { jc with initClientDone := true } with ⟨ke, kc⟩
          have hkpres := initK8sInformers_preserves env { jc with initClientDone := true }
          rw [hk] at hkpres
          have hi := informerPhase_not_done env { jc with initClientDone := true } ke kc
            (by rw [hc2inf]; exact hid) hk
          cases ke with
          | some e =>
            rw [reconcile_informer_fail env c rc istio e _ _ _ _ hcr hc hi]
            refine ⟨fun _ => ?_, fun _ => rfl, fun h => absurd h (by simp [hcd]),
                    fun h => absurd h (by simp [hid])⟩
            show kc.initClientDone = true
            rw [hkpres.1]
          | none =>
            rw [reconcile_phases_ok env c rc istio _ _ _ _ hcr hc hi]
            refine ⟨fun _ => ?_, fun _ => rfl, fun h => absurd h (by simp [hcd]),
                    fun h => absurd h (by simp [hid])⟩
            show kc.initClientDone = true
            rw [hkpres.1]

/-- Concrete instance of `once_flags_latch_and_suppress_retry`: a
cluster whose client guard already latched is not re-initialized. -/
theorem once_flags_latch_and_suppress_retry_witness :
    Event.clientInitAttempted ∉
      (Reconcile ⟨none, none, none, none, none, fun _ => none⟩
        { newCluster "w" with initClientDone := true }
        (some ⟨"istio-remote", "default"⟩) none).trace :=
  (once_flags_latch_and_suppress_retry ⟨none, none, none, none, none, fun _ => none⟩
    { newCluster "w" with initClientDone := true }
    (some ⟨"istio-remote", "default"⟩) none).2.2.1 rfl

/-- C5 counterexample: a pre-reconciliation failure and a pipeline-step
failure produce identical returned errors — both wrapped with the same
"could not reconcile" context — although different phases failed (no
pipeline step ran in the first call; the first step ran and failed in
the second), so the error context does not distinguish these phases. -/
theorem error_context_not_phase_distinguishing_counterexample :
    (Reconcile ⟨some (GoErr.base "boom" false), none, none, none, none, fun _ => none⟩
      { newCluster "c" with initClientDone := true, initInformersDone := true }
      (some ⟨"istio-remote", "default"⟩) none).err =
    (Reconcile ⟨none, none, none, none, none,
        fun s => if s = StepName.reconcileConfig then some (GoErr.base "boom" false) else none⟩
      { newCluster "c" with initClientDone := true, initInformersDone := true }
      (some ⟨"istio-remote", "default"⟩) none).err ∧
    (Reconcile ⟨some (GoErr.base "boom" false), none, none, none, none, fun _ => none⟩
      { newCluster "c" with initClientDone := true, initInformersDone := true }
      (some ⟨"istio-remote", "default"⟩) none).err.isSome = true ∧
    stepsRan (Reconcile ⟨some (GoErr.base "boom" false), none, none, none, none,
        fun _ => none⟩
      { newCluster "c" with initClientDone := true, initInformersDone := true }
      (some ⟨"istio-remote", "default"⟩) none).trace = [] ∧
    stepsRan (Reconcile ⟨none, none, none, none, none,
        fun s => if s = StepName.reconcileConfig then some (GoErr.base "boom" false) else none⟩
      { newCluster "c" with initClientDone := true, initInformersDone := true }
      (some ⟨"istio-remote", "default"⟩) none).trace = [StepName.reconcileConfig] := by
  decide

/-- C5 amended: every error `Reconcile` returns is wrapped with a
context message, and the context takes one of only three values: client
initialization and informer initialization failures are identifiable
("could not init k8s clients" / "could not init k8s informers"), but
the pre-reconciliation phase and every pipeline step share the same
"could not reconcile" context, so those phases are not distinguishable
from the wrapping. -/
theorem reconcile_errors_wrapped_with_three_contexts (env : ReconcileEnv)
    (c : ClusterState) (rc : Option RemoteIstio) (istio : Option Istio) :
    (∀ e, (Reconcile env c rc istio).err = some e →
      (∃ cause, e = GoErr.wrap "could not reconcile" cause) ∨
      (∃ cause, e = GoErr.wrap "could not init k8s clients" cause) ∨
      (∃ cause, e = GoErr.wrap "could not init k8s informers" cause)) ∧
    (∀ e, env.reconcileCRDsErr = some e →
      (Reconcile env c rc istio).err = some (GoErr.wrap "could not reconcile" e)) := by
  constructor
  · intro e he
    cases hcr : env.reconcileCRDsErr with
    | some e0 =>
      rw [reconcile_crds_fail env c rc istio e0 hcr] at he
      have h1 : some (GoErr.wrap "could not reconcile" e0) = some e := he
      injection h1 with h2
      exact Or.inl ⟨e0, h2.symm⟩
    | none =>
      rcases hc : clientPhase env { c with remoteConfig := rc } with ⟨ce, c2, tr1⟩
      cases ce with
      | some e1 =>
        rw [reconcile_client_fail env c rc istio e1 _ _ hcr hc] at he
        have h1 : some (GoErr.wrap "could not init k8s clients" e1) = some e := he
        injection h1 with h2
        exact Or.inr (Or.inl ⟨e1, h2.symm⟩)
      | none =>
        rcases hi : informerPhase env c2 with ⟨ie, c3, tr2⟩
        cases ie with
        | some e2 =>
          rw [reconcile_informer_fail env c rc istio e2 _ _ _ _ hcr hc hi] at he
          have h1 : some (GoErr.wrap "could not init k8s informers" e2) = some e := he
          injection h1 with h2
          exact Or.inr (Or.inr ⟨e2, h2.symm⟩)
        | none =>
          rw [reconcile_phases_ok env c rc istio _ _ _ _ hcr hc hi] at he
          rcases hp : (runPipeline env.stepErr reconcilerFuncs).1 with _ | e3
          · rw [hp] at he
            simp at he
          · rw [hp] at he
            have h1 : some (GoErr.wrap "could not reconcile" e3) = some e := he
            injection h1 with h2
            exact Or.inl ⟨e3, h2.symm⟩
  · intro e h
    rw [reconcile_crds_fail env c rc istio e h]

/-- Concrete instance of `reconcile_errors_wrapped_with_three_contexts`. -/
theorem reconcile_errors_wrapped_with_three_contexts_witness :
    (Reconcile ⟨some (GoErr.base "boom" false), none, none, none, none, fun _ => none⟩
      (newCluster "w") (some ⟨"istio-remote", "default"⟩) none).err =
      some (GoErr.wrap "could not reconcile" (GoErr.base "boom" false)) :=
  (reconcile_errors_wrapped_with_three_contexts
    ⟨some (GoErr.base "boom" false), none, none, none, none, fun _ => none⟩
    (newCluster "w") (some ⟨"istio-remote", "default"⟩) none).2
    (GoErr.base "boom" false) rfl

/-- C4: a successful `Reconcile` runs exactly the six pipeline steps in
the fixed source order; and when the pipeline is reached
(some step ran) and its first failing step is `s` — every step before
`s` succeeds and `s` fails — then exactly the steps up to and including
`s` have run, the steps after `s` have not, and `Reconcile` returns an
error. -/
theorem pipeline_fixed_order_and_short_circuit (env : ReconcileEnv)
    (c : ClusterState) (rc : Option RemoteIstio) (istio : Option Istio) :
    ((Reconcile env c rc istio).err = none →
      stepsRan (Reconcile env c rc istio).trace = reconcilerFuncs) ∧
    (∀ pre s post e, reconcilerFuncs = pre ++ s :: post →
      (∀ t ∈ pre, env.stepErr t = none) → env.stepErr s = some e →
      stepsRan (Reconcile env c rc istio).trace ≠ [] →
      stepsRan (Reconcile env c rc istio).trace = pre ++ [s] ∧
        (Reconcile env c rc istio).err.isSome = true) := by
  cases hcr : env.reconcileCRDsErr with
  | some e0 =>
    rw [reconcile_crds_fail env c rc istio e0 hcr]
    constructor
    · intro he
      exact absurd he (by simp)
    · intro pre s post e hsplit hpre hfail hne
      exact absurd rfl hne
  | none =>
    rcases hc : clientPhase env { c with remoteConfig := rc } with ⟨ce, c2, tr1⟩
    have hs1 : stepsRan tr1 = [] := by
      have hx := clientPhase_stepsRan env { c with remoteConfig := rc }
      rw [hc] at hx
      exact hx
    cases ce with
    | some e1 =>
      rw [reconcile_client_fail env c rc istio e1 _ _ hcr hc]
      constructor
      · intro he
        exact absurd he (by simp)
      · intro pre s post e hsplit hpre hfail hne
        exact absurd hs1 hne
    | none =>
      rcases hi : informerPhase env c2 with ⟨ie, c3, tr2⟩
      have hs2 : stepsRan tr2 = [] := by
        have hx := informerPhase_stepsRan env c2
        rw [hi] at hx
        exact hx
      cases ie with
      | some e2 =>
        rw [reconcile_informer_fail env c rc istio e2 _ _ _ _ hcr hc hi]
        have hsz : stepsRan (tr1 ++ tr2) = [] := by
          rw [stepsRan_append, hs1, hs2]
          rfl
        constructor
        · intro he
          exact absurd he (by simp)
        · intro pre s post e hsplit hpre hfail hne
          exact absurd hsz hne
      | none =>
        rw [reconcile_phases_ok env c rc istio _ _ _ _ hcr hc hi]
        rcases hp : runPipeline env.stepErr reconcilerFuncs with ⟨perr, ran⟩
        have htr : stepsRan (tr1 ++ tr2 ++ List.map Event.ranStep ran) = ran := by
          rw [stepsRan_append, stepsRan_append, hs1, hs2, stepsRan_map_ranStep]
          simp
        constructor
        · intro he
          have hperr : perr = none := by
            cases perr with
            | none => rfl
            | some e0 => exact absurd he (by simp)
          have hran : ran = reconcilerFuncs := by
            have hx := runPipeline_none env.stepErr reconcilerFuncs (by rw [hp, hperr])
            rw [hp] at hx
            exact hx
          show stepsRan (tr1 ++ tr2 ++ List.map Event.ranStep ran) = reconcilerFuncs
          rw [htr, hran]
        · intro pre s post e hsplit hpre hfail hne
          have hrun : (perr, ran) = (some e, pre ++ [s]) := by
            rw [← hp, hsplit]
            exact runPipeline_fail_split env.stepErr e pre s post hpre hfail
          injection hrun with h1 h2
          constructor
          · show stepsRan (tr1 ++ tr2 ++ List.map Event.ranStep ran) = pre ++ [s]
            rw [htr, h2]
          · show (Option.map (GoErr.wrap "could not reconcile") perr).isSome = true
            rw [h1]
            rfl

/-- Concrete instance of `pipeline_fixed_order_and_short_circuit`: a
fully successful run executes all six steps in order. -/
theorem pipeline_fixed_order_and_short_circuit_witness :
    stepsRan (Reconcile ⟨none, none, none, none, none, fun _ => none⟩
      (newCluster "w") (some ⟨"istio-remote", "default"⟩) none).trace = reconcilerFuncs :=
  (pipeline_fixed_order_and_short_circuit ⟨none, none, none, none, none, fun _ => none⟩
    (newCluster "w") (some ⟨"istio-remote", "default"⟩) none).1 (by decide)

end RemoteClusters
